import Mathlib

/-!
Verification of the two diagnostic tools of the lcdproc_g15 repository:
`debug/debug_rgb.py` (backlight-change monitor) and `debug/debug_keys.py`
(key-event monitor), as a shallow embedding.

Modelling conventions.
The filesystem is a function `String → Option String`: `none` means opening
or reading that path raises, `some c` means the raw content is `c`.  A
directory listing is an `Option (List String)` for the same reason.  Python's
`str.strip()` is modelled character-exactly as `pyStrip` (Python strips the
six whitespace characters space, tab, newline, carriage return, vertical tab
and form feed).  The snapshot dictionary built by `get_rgb_state` is the
record `RGBState`; dictionary indexing by the literal keys used in the script
is `RGBState.get`.  The straight-line startup code of `debug_rgb.py` is
embedded as an explicit action trace (`RgbAction`), so that "prints a message",
"attempts an attribute read", "exits with status 1" and "enters the monitor
loop" are inspectable events.  The body of the infinite polling loop is the
pure step `monitorStep`; a whole run over a list of sampled snapshots is
`runMonitor`, which also tracks the snapshot most recently printed.
-/

/-! ## debug_rgb.py: constants and file reading -/

/-- Sysfs path constant `LED_BRIGHTNESS` of debug_rgb.py. -/
def LED_BRIGHTNESS : String := "/sys/class/leds/g15::kbd_backlight/brightness"

/-- Sysfs path constant `LED_COLOR` of debug_rgb.py. -/
def LED_COLOR : String := "/sys/class/leds/g15::kbd_backlight/color"

/-- Sysfs path constant `POWER_BRIGHTNESS` of debug_rgb.py. -/
def POWER_BRIGHTNESS : String := "/sys/class/leds/g15::power_on_backlight_val/brightness"

/-- Sysfs path constant `POWER_COLOR` of debug_rgb.py. -/
def POWER_COLOR : String := "/sys/class/leds/g15::power_on_backlight_val/color"

/-- The whitespace characters removed by Python's `str.strip()`:
space, tab, newline, carriage return, vertical tab, form feed. -/
def isPythonSpace (c : Char) : Bool :=
  c == ' ' || c == '\t' || c == '\n' || c == '\r' || c == '\x0b' || c == '\x0c'

/-- Python's `s.strip()`: drop leading and trailing whitespace characters. -/
def pyStrip (s : String) : String :=
  String.mk (((s.data.dropWhile isPythonSpace).reverse.dropWhile isPythonSpace).reverse)

/-- `read_file` of debug_rgb.py: `try: return open(path).read().strip()
except: return "ERROR"`.  `fs path = none` models the read raising. -/
def read_file (fs : String → Option String) (path : String) : String :=
  match fs path with
  | some content => pyStrip content
  | none => "ERROR"

/-! ## debug_rgb.py: snapshots and change detection -/

/-- The dictionary built by `get_rgb_state` of debug_rgb.py: four attribute
values plus a timestamp string. -/
structure RGBState where
  kbd_brightness : String
  kbd_color : String
  power_brightness : String
  power_color : String
  timestamp : String
  deriving DecidableEq, Repr

/-- The four dictionary keys the change-detection loop of
`monitor_rgb_changes` iterates over, in source order. -/
def rgbFields : List String :=
  ["kbd_brightness", "kbd_color", "power_brightness", "power_color"]

/-- Dictionary indexing `state[key]` for the keys debug_rgb.py uses. -/
def RGBState.get (s : RGBState) (key : String) : String :=
  if key = "kbd_brightness" then s.kbd_brightness
  else if key = "kbd_color" then s.kbd_color
  else if key = "power_brightness" then s.power_brightness
  else if key = "power_color" then s.power_color
  else if key = "timestamp" then s.timestamp
  else ""

/-- `get_rgb_state` of debug_rgb.py: read the four attribute files and
record a timestamp (the timestamp source is a parameter `ts`). -/
def get_rgb_state (fs : String → Option String) (ts : String) : RGBState :=
  { kbd_brightness := read_file fs LED_BRIGHTNESS,
    kbd_color := read_file fs LED_COLOR,
    power_brightness := read_file fs POWER_BRIGHTNESS,
    power_color := read_file fs POWER_COLOR,
    timestamp := ts }

/-- The four attribute paths read by one `get_rgb_state` call, in order. -/
def attributePaths : List String :=
  [LED_BRIGHTNESS, LED_COLOR, POWER_BRIGHTNESS, POWER_COLOR]

/-- One entry of the `changes` list built by `monitor_rgb_changes`:
`{'param': key, 'old': last_state[key], 'new': current_state[key]}`. -/
structure Change where
  param : String
  old : String
  new : String
  deriving DecidableEq, Repr

/-- The change-detection step of `monitor_rgb_changes`: for each of the four
keys, if `current_state[key] != last_state[key]`, append an entry. -/
def detectChanges (last current : RGBState) : List Change :=
  rgbFields.filterMap fun key =>
    if current.get key ≠ last.get key then
      some { param := key, old := last.get key, new := current.get key }
    else none

/-- One iteration of the polling loop of `monitor_rgb_changes`: compute the
change list and, when it is nonempty (`if changes:`), print the report and
replace `last_state` by `current_state`; otherwise keep `last_state`. -/
def monitorStep (last current : RGBState) : List Change × RGBState :=
  let changes := detectChanges last current
  if changes ≠ [] then (changes, current) else (changes, last)

/-- One fold step of a whole monitor run.  The accumulator carries
`(last_state, snapshot most recently printed)`: when a change report is
printed the report's values and timestamp are those of `current_state`,
so the printed snapshot becomes `current_state`. -/
def runStep (acc : RGBState × RGBState) (cur : RGBState) : RGBState × RGBState :=
  ((monitorStep acc.1 cur).2, if (monitorStep acc.1 cur).1 ≠ [] then cur else acc.2)

/-- A run of the polling loop of `monitor_rgb_changes` over a list of sampled
snapshots, starting from the initial snapshot (which is printed at startup).
Returns `(final last_state, snapshot most recently printed)`. -/
def runMonitor (init : RGBState) (samples : List RGBState) : RGBState × RGBState :=
  samples.foldl runStep (init, init)

/-! ## debug_rgb.py: HID enumeration and startup trace -/

/-- `check_hidraw_devices` of debug_rgb.py: list `/dev` (a raising listing is
modelled by `none` and yields `[]` via the `except` arm) and keep
`"/dev/" + device` for every entry starting with `"hidraw"`. -/
def check_hidraw_devices (listing : Option (List String)) : List String :=
  match listing with
  | some entries =>
      (entries.filter fun device => device.startsWith ("hidraw")).map
        fun device => "/dev/" ++ device
  | none => []

/-- Observable startup actions of debug_rgb.py, in program order. -/
inductive RgbAction where
  | printLine (s : String)
  | listDevDir
  | readAttr (path : String)
  | exitCode (n : Nat)
  | enterLoop
  deriving DecidableEq, Repr

/-- The straight-line prefix of `monitor_rgb_changes`, from its first print
up to entering the `while True` loop, as an action trace: header prints, the
`/dev` scan, instruction prints, the four attribute reads of the initial
`get_rgb_state`, the initial-state report, then the loop. -/
def monitor_rgb_changes_entry (listing : Option (List String))
    (fs : String → Option String) (ts : String) : List RgbAction :=
  let hidraw_devs := check_hidraw_devices listing
  let last_state := get_rgb_state fs ts
  [RgbAction.printLine ("RGB Backlight Monitor"),
   RgbAction.printLine ("===================="),
   RgbAction.listDevDir,
   RgbAction.printLine ("Found HID raw devices: " ++ toString hidraw_devs),
   RgbAction.printLine ("Press the RGB backlight button on your G15 keyboard"),
   RgbAction.printLine ("Press Ctrl+C to exit"),
   RgbAction.printLine ("")]
  ++ attributePaths.map RgbAction.readAttr
  ++ [RgbAction.printLine ("Initial state at " ++ last_state.timestamp ++ ":")]
  ++ (rgbFields.map fun key => RgbAction.printLine ("  " ++ key ++ ": " ++ last_state.get key))
  ++ [RgbAction.printLine (String.mk (List.replicate 50 '-'))]
  ++ [RgbAction.enterLoop]

/-- The `__main__` block of debug_rgb.py as an action trace: when
`os.geteuid() != 0`, print the root message and `sys.exit(1)`; otherwise run
`monitor_rgb_changes`. -/
def debug_rgb_main (euid : Nat) (listing : Option (List String))
    (fs : String → Option String) (ts : String) : List RgbAction :=
  if euid ≠ 0 then
    [RgbAction.printLine ("This script needs to be run as root (sudo)"),
     RgbAction.exitCode 1]
  else
    monitor_rgb_changes_entry listing fs ts

/-! ## debug_keys.py: device discovery and event filtering -/

/-- `evdev.ecodes.EV_KEY`. -/
def EV_KEY : Nat := 1

/-- `evdev.KeyEvent.key_up`: keystate of a release event. -/
def key_up : Nat := 0

/-- `evdev.KeyEvent.key_down`: keystate of a press event. -/
def key_down : Nat := 1

/-- `evdev.KeyEvent.key_hold`: keystate of an autorepeat event. -/
def key_hold : Nat := 2

/-- An enumerated input device: name, path, identifiers and the set of event
types in its capability dictionary. -/
structure DeviceInfo where
  name : String
  path : String
  vendor : Nat
  product : Nat
  capabilities : List Nat
  deriving DecidableEq, Repr

/-- `find_all_devices` of debug_keys.py.  The loop prints every enumerated
device's details and appends to `devices` those with
`evdev.ecodes.EV_KEY in device.capabilities()`.  The first component is the
devices whose details were printed, the second the monitored list. -/
def find_all_devices : List DeviceInfo → List DeviceInfo × List DeviceInfo
  | [] => ([], [])
  | d :: rest =>
    let acc := find_all_devices rest
    (d :: acc.1, if EV_KEY ∈ d.capabilities then d :: acc.2 else acc.2)

/-- One input event as debug_keys.py sees it: `event.type`, `event.code`, and
the keystate `evdev.categorize(event).keystate` (for key events this is the
raw event value: 0 up, 1 down, 2 hold). -/
structure InputEvent where
  etype : Nat
  code : Nat
  value : Nat
  deriving DecidableEq, Repr

/-- A key report printed by `monitor_events`: the device's name and the
event code. -/
structure KeyReport where
  device : String
  code : Nat
  deriving DecidableEq, Repr

/-- The event handling of `monitor_events` of debug_keys.py for the pending
events of one ready device: for each event, if `event.type == EV_KEY` and the
categorized keystate equals `key_down`, a report is printed; every other
event produces nothing. -/
def monitor_events_device (deviceName : String) (events : List InputEvent) : List KeyReport :=
  events.filterMap fun e =>
    if e.etype = EV_KEY then
      if e.value = key_down then some { device := deviceName, code := e.code }
      else none
    else none

/-! ## Concrete sample data used by the witnesses -/

/-- A sample snapshot: medium brightness, red keyboard, timestamped. -/
def stT1 : RGBState := ⟨"2", "ff0000", "1", "00ff00", "10:00:00.000"⟩

/-- `stT1` re-sampled 100ms later: same four fields, new timestamp. -/
def stT2 : RGBState := ⟨"2", "ff0000", "1", "00ff00", "10:00:00.100"⟩

/-- The same four fields as `stT1` under a third timestamp. -/
def stT3 : RGBState := ⟨"2", "ff0000", "1", "00ff00", "23:59:59.900"⟩

/-- The same four fields as `stT1` under a fourth timestamp. -/
def stT4 : RGBState := ⟨"2", "ff0000", "1", "00ff00", "00:00:00.000"⟩

/-- A filesystem whose every file reads as a value with a trailing newline. -/
def fsNewline : String → Option String := fun _ => some ("255\n")

/-- A filesystem whose every file reads as the same value with a leading
blank instead. -/
def fsPadded : String → Option String := fun _ => some (" 255")

/-! ## Helper lemmas -/

theorem filterMap_guard_eq {α β : Type} (p : α → Prop) [DecidablePred p] (f : α → β) :
    ∀ l : List α,
      (l.filterMap fun a => if p a then some (f a) else none) =
        (l.filter fun a => decide (p a)).map f
  | [] => rfl
  | a :: l => by
    by_cases h : p a <;>
      simp [List.filterMap_cons, List.filter_cons, h, filterMap_guard_eq p f l]

theorem detectChanges_eq_filter (o n : RGBState) :
    detectChanges o n =
      (rgbFields.filter fun k => decide (n.get k ≠ o.get k)).map
        fun k => { param := k, old := o.get k, new := n.get k } :=
  filterMap_guard_eq _ _ rgbFields

theorem detectChanges_nil_iff (o n : RGBState) :
    detectChanges o n = [] ↔ ∀ k ∈ rgbFields, n.get k = o.get k := by
  rw [detectChanges_eq_filter]
  simp

theorem monitorStep_fst (last cur : RGBState) :
    (monitorStep last cur).1 = detectChanges last cur := by
  by_cases h : detectChanges last cur = [] <;> simp [monitorStep, h]

theorem monitorStep_snd_nil (last cur : RGBState)
    (h : detectChanges last cur = []) : (monitorStep last cur).2 = last := by
  simp [monitorStep, h]

theorem monitorStep_snd_ne (last cur : RGBState)
    (h : detectChanges last cur ≠ []) : (monitorStep last cur).2 = cur := by
  simp [monitorStep, h]

theorem change_of_key_injective (o n : RGBState) :
    Function.Injective fun k => Change.mk k (o.get k) (n.get k) := fun _ _ h =>
  congrArg Change.param h

theorem rgbFields_nodup : rgbFields.Nodup := by decide

theorem runStep_preserves (acc : RGBState × RGBState) (cur : RGBState)
    (h : acc.1 = acc.2) : (runStep acc cur).1 = (runStep acc cur).2 := by
  by_cases hc : (monitorStep acc.1 cur).1 ≠ []
  · simp only [runStep, if_pos hc]
    exact monitorStep_snd_ne acc.1 cur (by rwa [monitorStep_fst] at hc)
  · have hnil : detectChanges acc.1 cur = [] := by
      have h2 := not_not.mp hc
      rwa [monitorStep_fst] at h2
    simp only [runStep, if_neg hc]
    rw [monitorStep_snd_nil acc.1 cur hnil, h]

theorem foldl_runStep_eq :
    ∀ (l : List RGBState) (acc : RGBState × RGBState), acc.1 = acc.2 →
      (l.foldl runStep acc).1 = (l.foldl runStep acc).2
  | [], _, h => h
  | c :: l, acc, h => by
    rw [List.foldl_cons]
    exact foldl_runStep_eq l (runStep acc c) (runStep_preserves acc c h)

/-! ## Claim theorems -/

/-- C1: for any pair of snapshots, `detectChanges` produces exactly one
entry per attribute field whose value differs, carrying the field's name,
its old value and its new value, and every entry is for one of the four
fields, with correct old and new values, on a field that indeed differs. -/
theorem detectChanges_reports_exactly_changed_fields (o n : RGBState) :
    (∀ k ∈ rgbFields,
      (detectChanges o n).count { param := k, old := o.get k, new := n.get k } =
        if n.get k = o.get k then 0 else 1) ∧
    ∀ c ∈ detectChanges o n,
      c.param ∈ rgbFields ∧ c.old = o.get c.param ∧ c.new = n.get c.param ∧
        n.get c.param ≠ o.get c.param := by
  constructor
  · intro k hk
    rw [detectChanges_eq_filter,
      List.count_map_of_injective _ _ (change_of_key_injective o n),
      List.count_eq_of_nodup (rgbFields_nodup.filter _)]
    by_cases h : n.get k = o.get k
    · simp [List.mem_filter, h]
    · simp [List.mem_filter, h, hk]
  · intro c hc
    rw [detectChanges_eq_filter] at hc
    simp only [List.mem_map, List.mem_filter] at hc
    obtain ⟨k, ⟨hk, hp⟩, rfl⟩ := hc
    simp only [decide_eq_true_eq] at hp
    exact ⟨hk, rfl, rfl, hp⟩

/-- C2: when opening or reading the file fails (`fs path = none`), the
file-read operation returns the literal string "ERROR" instead of raising;
`read_file` is a total function, so no exception propagates and the
monitoring loop continues. -/
theorem read_file_failure_returns_error_marker (fs : String → Option String)
    (path : String) (h : fs path = none) :
    read_file fs path = "ERROR" := by
  simp [read_file, h]

theorem read_file_failure_returns_error_marker_witness :
    read_file (fun _ => none) LED_BRIGHTNESS = "ERROR" :=
  read_file_failure_returns_error_marker (fun _ => none) LED_BRIGHTNESS rfl

/-- C3: started without root (euid ≠ 0), debug_rgb.py prints the root
message and exits with status 1, with no attribute-file read and without
entering the loop; with root (euid = 0) the check passes, the startup
sequence runs (reading the four attribute files), nothing exits, and the
monitor loop is entered. -/
theorem debug_rgb_main_privilege_check (euid : Nat) (listing : Option (List String))
    (fs : String → Option String) (ts : String) :
    (euid ≠ 0 →
      debug_rgb_main euid listing fs ts =
        [RgbAction.printLine ("This script needs to be run as root (sudo)"),
         RgbAction.exitCode 1] ∧
      (∀ p, RgbAction.readAttr p ∉ debug_rgb_main euid listing fs ts) ∧
      RgbAction.enterLoop ∉ debug_rgb_main euid listing fs ts) ∧
    (euid = 0 →
      debug_rgb_main euid listing fs ts = monitor_rgb_changes_entry listing fs ts ∧
      (∀ n, RgbAction.exitCode n ∉ debug_rgb_main euid listing fs ts) ∧
      RgbAction.enterLoop ∈ debug_rgb_main euid listing fs ts ∧
      (∀ p ∈ attributePaths, RgbAction.readAttr p ∈ debug_rgb_main euid listing fs ts)) := by
  constructor
  · intro h
    have hif : debug_rgb_main euid listing fs ts =
        [RgbAction.printLine ("This script needs to be run as root (sudo)"),
         RgbAction.exitCode 1] := by
      simp only [debug_rgb_main, if_pos h]
    refine ⟨hif, ?_, ?_⟩ <;> rw [hif] <;> simp
  · intro h
    subst h
    have hif : debug_rgb_main 0 listing fs ts = monitor_rgb_changes_entry listing fs ts := by
      simp [debug_rgb_main]
    refine ⟨hif, ?_, ?_, ?_⟩
    · intro n
      rw [hif]
      simp [monitor_rgb_changes_entry]
    · rw [hif]
      simp [monitor_rgb_changes_entry]
    · intro p hp
      rw [hif]
      have hmem : RgbAction.readAttr p ∈ attributePaths.map RgbAction.readAttr :=
        List.mem_map_of_mem _ hp
      simp only [monitor_rgb_changes_entry, List.mem_append]
      tauto

theorem monitor_events_eq (name : String) (events : List InputEvent) :
    monitor_events_device name events =
      events.filterMap fun e =>
        if e.etype = EV_KEY ∧ e.value = key_down then
          some { device := name, code := e.code }
        else none := by
  unfold monitor_events_device
  congr 1
  funext e
  by_cases h1 : e.etype = EV_KEY <;> by_cases h2 : e.value = key_down <;>
    simp [h1, h2]

/-- C4: only key-type events in the key-down state produce printed key
reports: the report list is exactly the key-down key events mapped to
reports, and a single event yields no report precisely when it is not a
key-type event in the key-down state (so key-up, autorepeat and non-key
events produce no output). -/
theorem monitor_events_prints_key_down_only (name : String) (events : List InputEvent) :
    monitor_events_device name events =
      (events.filter fun e => decide (e.etype = EV_KEY ∧ e.value = key_down)).map
        (fun e => { device := name, code := e.code }) ∧
    ∀ e, monitor_events_device name [e] = [] ↔
      ¬(e.etype = EV_KEY ∧ e.value = key_down) := by
  constructor
  · rw [monitor_events_eq]
    exact filterMap_guard_eq _ _ events
  · intro e
    rw [monitor_events_eq, filterMap_guard_eq]
    by_cases h : e.etype = EV_KEY ∧ e.value = key_down <;> simp [List.filter_cons, h]

/-- C5: `find_all_devices` prints the details of every enumerated device,
and the monitored set it returns consists exactly of the devices whose
capability set contains the key-event capability `EV_KEY`. -/
theorem find_all_devices_filters_key_capability (all : List DeviceInfo) :
    (find_all_devices all).1 = all ∧
    (find_all_devices all).2 = all.filter (fun d => decide (EV_KEY ∈ d.capabilities)) ∧
    ∀ d, d ∈ (find_all_devices all).2 ↔ d ∈ all ∧ EV_KEY ∈ d.capabilities := by
  induction all with
  | nil => exact ⟨rfl, rfl, by simp [find_all_devices]⟩
  | cons d rest ih =>
    obtain ⟨ih1, ih2, ih3⟩ := ih
    refine ⟨by simp [find_all_devices, ih1], ?_, ?_⟩
    · by_cases h : EV_KEY ∈ d.capabilities <;>
        simp [find_all_devices, List.filter_cons, h, ih2]
    · intro e
      have base := ih3 e
      by_cases h : EV_KEY ∈ d.capabilities
      · simp only [find_all_devices, if_pos h, List.mem_cons]
        constructor
        · rintro (rfl | he)
          · exact ⟨Or.inl rfl, h⟩
          · obtain ⟨h1, h2⟩ := base.mp he
            exact ⟨Or.inr h1, h2⟩
        · rintro ⟨rfl | h1, h2⟩
          · exact Or.inl rfl
          · exact Or.inr (base.mpr ⟨h1, h2⟩)
      · simp only [find_all_devices, if_neg h, List.mem_cons]
        constructor
        · intro he
          obtain ⟨h1, h2⟩ := base.mp he
          exact ⟨Or.inr h1, h2⟩
        · rintro ⟨rfl | h1, h2⟩
          · exact absurd h2 h
          · exact base.mpr ⟨h1, h2⟩

/-- C6: when the newly sampled snapshot equals the previous one on all four
attribute fields the loop iteration reports no change and keeps the stored
snapshot; the stored snapshot is replaced (by the current sample) exactly
when the change list is nonempty, i.e. when at least one field changed. -/
theorem monitorStep_no_change_keeps_snapshot (last cur : RGBState) :
    ((monitorStep last cur).1 = [] ↔ ∀ k ∈ rgbFields, cur.get k = last.get k) ∧
    ((monitorStep last cur).1 = [] → (monitorStep last cur).2 = last) ∧
    ((monitorStep last cur).1 ≠ [] → (monitorStep last cur).2 = cur) :=
  ⟨by rw [monitorStep_fst]; exact detectChanges_nil_iff last cur,
   fun h => monitorStep_snd_nil last cur (by rwa [monitorStep_fst] at h),
   fun h => monitorStep_snd_ne last cur (by rwa [monitorStep_fst] at h)⟩

/-- C7: at every iteration boundary of the monitor loop the stored
`last_state` equals the snapshot whose values were most recently printed:
the initial snapshot at startup, or the current snapshot of the most recent
change report. -/
theorem runMonitor_last_state_matches_printed (init : RGBState)
    (samples : List RGBState) :
    (runMonitor init samples).1 = (runMonitor init samples).2 :=
  foldl_runStep_eq samples (init, init) rfl

/-- C8: a raising directory listing makes the HID scan return the empty
list, and a successful listing yields exactly the `/dev/`-prefixed paths of
the entries whose names start with "hidraw". -/
theorem check_hidraw_devices_spec (es : List String) :
    check_hidraw_devices none = [] ∧
    ∀ p, p ∈ check_hidraw_devices (some es) ↔
      ∃ d ∈ es, d.startsWith ("hidraw") = true ∧ p = "/dev/" ++ d := by
  refine ⟨rfl, fun p => ?_⟩
  simp only [check_hidraw_devices, List.mem_map, List.mem_filter]
  constructor
  · rintro ⟨d, ⟨hd, hs⟩, rfl⟩
    exact ⟨d, hd, hs, rfl⟩
  · rintro ⟨d, hd, hs, rfl⟩
    exact ⟨d, ⟨hd, hs⟩, rfl⟩

/-- C9: `read_file` returns the file content with leading and trailing
whitespace removed; consequently two filesystems whose raw contents differ
only by surrounding whitespace give snapshots equal on all four attribute
fields, so no change is reported and the stored snapshot is kept. -/
theorem read_file_strips_surrounding_whitespace (fs1 fs2 : String → Option String)
    (ts1 ts2 : String)
    (h : ∀ p, ∃ c1 c2, fs1 p = some c1 ∧ fs2 p = some c2 ∧ pyStrip c1 = pyStrip c2) :
    (∀ p c, fs1 p = some c → read_file fs1 p = pyStrip c) ∧
    detectChanges (get_rgb_state fs1 ts1) (get_rgb_state fs2 ts2) = [] ∧
    (monitorStep (get_rgb_state fs1 ts1) (get_rgb_state fs2 ts2)).2 =
      get_rgb_state fs1 ts1 := by
  have hread : ∀ (fs : String → Option String) p c, fs p = some c →
      read_file fs p = pyStrip c := by
    intro fs p c hp
    simp [read_file, hp]
  have hfield : ∀ p, read_file fs2 p = read_file fs1 p := by
    intro p
    obtain ⟨c1, c2, h1, h2, he⟩ := h p
    rw [hread fs1 p c1 h1, hread fs2 p c2 h2, he]
  have hnil : detectChanges (get_rgb_state fs1 ts1) (get_rgb_state fs2 ts2) = [] := by
    rw [detectChanges_nil_iff]
    intro k hk
    simp only [rgbFields, List.mem_cons, List.not_mem_nil, or_false] at hk
    rcases hk with rfl | rfl | rfl | rfl <;>
      simp [get_rgb_state, RGBState.get, hfield]
  exact ⟨hread fs1, hnil, monitorStep_snd_nil _ _ hnil⟩

theorem read_file_strips_surrounding_whitespace_witness :
    (∀ p c, fsNewline p = some c → read_file fsNewline p = pyStrip c) ∧
    detectChanges (get_rgb_state fsNewline "10:00:00.000")
      (get_rgb_state fsPadded "10:00:00.100") = [] ∧
    (monitorStep (get_rgb_state fsNewline "10:00:00.000")
      (get_rgb_state fsPadded "10:00:00.100")).2 =
      get_rgb_state fsNewline "10:00:00.000" :=
  read_file_strips_surrounding_whitespace fsNewline fsPadded
    "10:00:00.000" "10:00:00.100"
    (fun _ => ⟨"255\n", " 255", rfl, rfl, by decide⟩)

/-- C10: change detection does not depend on the timestamp field: snapshot
pairs that agree on the four attribute fields give identical change lists
whatever their timestamps, and a pair agreeing on all four fields (so
differing at most in timestamp) yields no change report and no snapshot
replacement. -/
theorem detectChanges_timestamp_independent (o1 n1 o2 n2 : RGBState)
    (ho : ∀ k ∈ rgbFields, o1.get k = o2.get k)
    (hn : ∀ k ∈ rgbFields, n1.get k = n2.get k) :
    detectChanges o1 n1 = detectChanges o2 n2 ∧
    ((∀ k ∈ rgbFields, n1.get k = o1.get k) →
      (monitorStep o1 n1).1 = [] ∧ (monitorStep o1 n1).2 = o1) := by
  constructor
  · rw [detectChanges_eq_filter, detectChanges_eq_filter]
    have hfil : (rgbFields.filter fun k => decide (n1.get k ≠ o1.get k)) =
        rgbFields.filter fun k => decide (n2.get k ≠ o2.get k) :=
      List.filter_congr fun k hk => by rw [ho k hk, hn k hk]
    rw [hfil]
    refine List.map_congr_left fun k hk => ?_
    have hkf : k ∈ rgbFields := (List.mem_filter.mp hk).1
    rw [ho k hkf, hn k hkf]
  · intro hsame
    have hnil : detectChanges o1 n1 = [] := (detectChanges_nil_iff o1 n1).mpr hsame
    exact ⟨by rw [monitorStep_fst, hnil], monitorStep_snd_nil _ _ hnil⟩

theorem detectChanges_timestamp_independent_witness :
    detectChanges stT1 stT2 = detectChanges stT3 stT4 ∧
    ((∀ k ∈ rgbFields, stT2.get k = stT1.get k) →
      (monitorStep stT1 stT2).1 = [] ∧ (monitorStep stT1 stT2).2 = stT1) :=
  detectChanges_timestamp_independent stT1 stT2 stT3 stT4 (by decide) (by decide)
